import Mathlib

/-!
Verification of the laser-tripwire receiver firmware (LDR-based block detector).

The development shallowly embeds the firmware's persistent state and the
operations the specification talks about:

* the moving-average sampler (`updateLDRReading`, `getAverageReading`),
* the block-detector state machine (`detectLaserBlock`),
* the connectivity check and baseline calibration (`checkLDRConnection`,
  `calibrateBaseline`),
* outbound event construction (`sendLaserEvent`) and inbound command
  dispatch (`handleCommand`).

Machine integers (`int`, `long`) are modelled as `Int`; the 10-bit analog
readings are nonnegative integers.  C truncating division is `Int.tdiv`
(identical to floor division on the nonnegative values that occur here).
Unsigned millisecond timestamps are modelled as `Nat`; `millis() - start`
is `Nat` subtraction, which agrees with the unsigned subtraction whenever
the clock has not wrapped.  The C `float` arithmetic of the change
percentage is modelled over `ℚ`; on the small integer operands involved
the threshold comparison agrees with the single-precision computation.
JSON encoding/decoding is external to the firmware (a library); a decoded
inbound payload is modelled as `Option CommandDoc`, `none` standing for a
deserialization failure.
-/

namespace LaserReceiver

/-- `#define SAMPLE_SIZE 5` — moving average sample size. -/
def SAMPLE_SIZE : Nat := 5

/-- `#define DETECTION_THRESHOLD 25` — detection threshold percentage. -/
def DETECTION_THRESHOLD : Int := 25

/-- `#define CONFIRMATION_COUNT 3` — confirmation count. -/
def CONFIRMATION_COUNT : Int := 3

/-- `#define CALIBRATION_SAMPLES 50` — calibration sample count. -/
def CALIBRATION_SAMPLES : Int := 50

/-! ## Outbound events (`sendLaserEvent`) -/

/-- One serialized outbound JSON event, with one field per `doc[...]`
assignment in `sendLaserEvent`.  `duration_ms` is `Option` because the
code adds the field only conditionally. -/
structure Event where
  event_type : String
  timestamp : Nat
  device_id : String
  block_count : Int
  ldr_value : Int
  baseline : Int
  duration_ms : Option Nat
  deriving Repr, DecidableEq

/-- `sendLaserEvent(eventType, duration)`: builds the outbound record.
`doc["duration_ms"] = duration` is executed only under `if (duration > 0)`.
`timestamp` is `millis()` at emission time and `ldr_value` is
`getAverageReading()`, both passed in by the caller model. -/
def sendLaserEvent (eventType : String) (duration : Nat) (now : Nat)
    (blockCount : Int) (ldrValue : Int) (baselineValue : Int) : Event :=
  { event_type := eventType
    timestamp := now
    device_id := "Arduino_Laser_Receiver"
    block_count := blockCount
    ldr_value := ldrValue
    baseline := baselineValue
    duration_ms := if duration > 0 then some duration else none }

/-! ## Moving-average sampler -/

/-- The sampler globals: `int ldrReadings[SAMPLE_SIZE]`, `int readingIndex`,
`int totalReading`. -/
structure SamplerState where
  ldrReadings : List Int
  readingIndex : Nat
  totalReading : Int
  deriving Repr, DecidableEq

/-- Startup state of the sampler: the window is zero-filled in `setup()`
(`for (i...) ldrReadings[i] = 0`), index and running total start at 0. -/
def initSampler : SamplerState :=
  { ldrReadings := List.replicate SAMPLE_SIZE 0
    readingIndex := 0
    totalReading := 0 }

/-- `updateLDRReading()`: subtract the reading about to be overwritten from
the running total, store the new raw value, add it, advance the index
modulo `SAMPLE_SIZE`.  The raw value is the fresh `analogRead(LDR_PIN)`,
passed as a parameter. -/
def updateLDRReading (s : SamplerState) (raw : Int) : SamplerState :=
  let old := (s.ldrReadings.get? s.readingIndex).getD 0
  { ldrReadings := s.ldrReadings.set s.readingIndex raw
    readingIndex := (s.readingIndex + 1) % SAMPLE_SIZE
    totalReading := s.totalReading - old + raw }

/-- `getAverageReading()`: `return totalReading / SAMPLE_SIZE;` — C integer
division truncates toward zero (`Int.tdiv`). -/
def getAverageReading (s : SamplerState) : Int :=
  s.totalReading.tdiv (SAMPLE_SIZE : Int)

/-- Ingest a whole sequence of raw samples, oldest first. -/
def runSampler (xs : List Int) : SamplerState :=
  xs.foldl updateLDRReading initSampler

/-! ## Block-detector state machine -/

/-- The detector globals: `baselineValue`, `isBlocked`,
`confirmationCounter`, `lastDetectionTime`, `blockStartTime`,
`totalBlockedTime`, `blockCount`. -/
structure DetectorState where
  baselineValue : Int
  isBlocked : Bool
  confirmationCounter : Int
  lastDetectionTime : Nat
  blockStartTime : Nat
  totalBlockedTime : Nat
  blockCount : Int
  deriving Repr, DecidableEq

/-- Startup values of the detector globals. -/
def initDetector : DetectorState :=
  { baselineValue := 0
    isBlocked := false
    confirmationCounter := 0
    lastDetectionTime := 0
    blockStartTime := 0
    totalBlockedTime := 0
    blockCount := 0 }

/-- `changePercent = ((float)(baselineValue - currentAverage) / baselineValue)
* 100`, modelled over `ℚ`.  (Note `ℚ` division by zero yields 0, whereas the
C float computation yields NaN or −∞ for a zero baseline; in both models the
`>= 25` comparison is false there.) -/
def changePercent (baselineValue currentAverage : Int) : ℚ :=
  (((baselineValue : ℚ) - (currentAverage : ℚ)) / (baselineValue : ℚ)) * 100

/-- `detectLaserBlock()`, one tick.  `currentAverage` is
`getAverageReading()` and `now` is `millis()` at this tick.  Returns the
updated detector globals and the event handed to `sendLaserEvent`, if any. -/
def detectLaserBlock (s : DetectorState) (currentAverage : Int) (now : Nat) :
    DetectorState × Option Event :=
  let cp := changePercent s.baselineValue currentAverage
  if (DETECTION_THRESHOLD : ℚ) ≤ cp then
    -- possible block detected: confirmationCounter++
    let c := s.confirmationCounter + 1
    if CONFIRMATION_COUNT ≤ c ∧ s.isBlocked = false then
      let s' : DetectorState :=
        { s with
          confirmationCounter := c
          isBlocked := true
          blockStartTime := now
          blockCount := s.blockCount + 1
          lastDetectionTime := now }
      (s', some (sendLaserEvent "block_start" 0 now s'.blockCount
        currentAverage s.baselineValue))
    else
      ({ s with confirmationCounter := c }, none)
  else
    -- no block detected: if (confirmationCounter > 0) confirmationCounter--
    let c := if 0 < s.confirmationCounter then s.confirmationCounter - 1
             else s.confirmationCounter
    if s.isBlocked = true ∧ c = 0 then
      let blockDuration := now - s.blockStartTime
      ({ s with
          confirmationCounter := c
          isBlocked := false
          totalBlockedTime := s.totalBlockedTime + blockDuration },
       some (sendLaserEvent "block_end" blockDuration now s.blockCount
        currentAverage s.baselineValue))
    else
      ({ s with confirmationCounter := c }, none)

/-- Run the detector over a list of `(currentAverage, millis)` ticks,
keeping only the state. -/
def runDetect (s : DetectorState) (ticks : List (Int × Nat)) : DetectorState :=
  ticks.foldl (fun st p => (detectLaserBlock st p.1 p.2).1) s

/-! ## Connectivity check and calibration -/

/-- The min/max scan of `checkLDRConnection`: `minVal` starts at 1023,
`maxVal` at 0, each sample updates both. -/
def connScan (samples : List Int) : Int × Int :=
  samples.foldl
    (fun mm r => (if r < mm.1 then r else mm.1, if r > mm.2 then r else mm.2))
    (1023, 0)

/-- `checkLDRConnection()`: collect 10 samples, compute
`variation = maxVal - minVal`; report disconnected (`false`) when
`variation > 200 || minVal == maxVal`. -/
def checkLDRConnection (samples : List Int) : Bool :=
  let mm := connScan samples
  let variation := mm.2 - mm.1
  if variation > 200 ∨ mm.1 = mm.2 then false else true

/-- `calibrateBaseline()`: gate on `checkLDRConnection` (the code spins in a
retry/alert loop until a check passes — modelled as `none` when the supplied
check samples fail), then average `CALIBRATION_SAMPLES` raw samples with C
truncating division and store the result in `baselineValue`.  No other
global is assigned anywhere in the function. -/
def calibrateBaseline (connSamples calSamples : List Int)
    (s : DetectorState) : Option DetectorState :=
  if checkLDRConnection connSamples then
    some { s with baselineValue := calSamples.sum.tdiv CALIBRATION_SAMPLES }
  else
    none

/-! ## Inbound command handling -/

/-- A decoded inbound JSON command: optional `led`, `buzzer` and
`calibrate` fields (`doc.containsKey(...)` plus the value).  A field that
is absent (or not of the expected type, which ArduinoJson surfaces as a
default value) is `none`. -/
structure CommandDoc where
  led : Option String
  buzzer : Option String
  calibrate : Option Bool
  deriving Repr, DecidableEq

/-- Physical side effects of command dispatch (`digitalWrite` on the LED,
`playTone` on the buzzer). -/
inductive Effect where
  | ledWrite (high : Bool)
  | ledToggle
  | tone (freq dur : Nat)
  deriving Repr, DecidableEq

/-- The `doc.containsKey("led")` branch of `handleCommand`. -/
def ledEffects (led : Option String) : List Effect :=
  match led with
  | some c =>
      if c = "on" then [Effect.ledWrite true]
      else if c = "off" then [Effect.ledWrite false]
      else if c = "toggle" then [Effect.ledToggle]
      else []
  | none => []

/-- The `doc.containsKey("buzzer")` branch of `handleCommand`. -/
def buzzerEffects (buzzer : Option String) : List Effect :=
  match buzzer with
  | some c =>
      if c = "beep" then [Effect.tone 1000 200]
      else if c = "test" then [Effect.tone 800 300]
      else []
  | none => []

/-- `handleCommand(command)`: on deserialization failure (`parsed = none`)
it returns at once — no global is written and nothing is emitted.  On
success the `led`, `buzzer` and `calibrate` keys are dispatched
independently; `calibrate == true` re-runs `calibrateBaseline` (which may
spin on the connectivity gate, hence the `Option` result). -/
def handleCommand (parsed : Option CommandDoc) (connSamples calSamples : List Int)
    (s : DetectorState) : Option (DetectorState × List Effect) :=
  match parsed with
  | none => some (s, [])
  | some doc =>
      let effs := ledEffects doc.led ++ buzzerEffects doc.buzzer
      match doc.calibrate with
      | some true =>
          match calibrateBaseline connSamples calSamples s with
          | some s' => some (s', effs ++ [Effect.tone 1000 200])
          | none => none
      | _ => some (s, effs)

/-! ## The main loop -/

/-- The persistent state touched by one `loop()` tick's sampling/detection
pipeline. -/
structure SystemState where
  sampler : SamplerState
  detector : DetectorState
  deriving Repr, DecidableEq

/-- One `loop()` tick restricted to the detection pipeline:
`updateLDRReading(); detectLaserBlock();` — the fresh raw sample and the
tick's `millis()` are inputs. -/
def loopTick (st : SystemState) (raw : Int) (now : Nat) :
    SystemState × Option Event :=
  let sampler := updateLDRReading st.sampler raw
  let (detector, ev) := detectLaserBlock st.detector (getAverageReading sampler) now
  (⟨sampler, detector⟩, ev)

/-- Run several loop ticks, keeping only the state. -/
def runLoop (st : SystemState) (ticks : List (Int × Nat)) : SystemState :=
  ticks.foldl (fun s p => (loopTick s p.1 p.2).1) st

/-- `setup()` as far as the detection state is concerned: zero-fill the
window, then `calibrateBaseline()`.  Calibration does not touch the
sampler, so the window is still zero-filled afterwards. -/
def afterSetup (connSamples calSamples : List Int) : Option SystemState :=
  match calibrateBaseline connSamples calSamples initDetector with
  | some d => some ⟨initSampler, d⟩
  | none => none

/-! ## Helper lemmas -/

/-- With a positive baseline, the float threshold comparison is the integer
comparison `baseline ≤ 4 * (baseline − average)`. -/
theorem changePercent_threshold_iff (b a : Int) (hb : 0 < b) :
    ((DETECTION_THRESHOLD : Int) : ℚ) ≤ changePercent b a ↔ b ≤ 4 * (b - a) := by
  unfold changePercent DETECTION_THRESHOLD
  rw [div_mul_eq_mul_div, le_div_iff₀ (by exact_mod_cast hb)]
  constructor
  · intro h
    have h2 : ((4 : Int) * (b - a) : ℚ) ≥ (b : ℚ) := by push_cast at h ⊢; linarith
    exact_mod_cast h2
  · intro h
    have h2 : ((b : ℚ)) ≤ ((4 : Int) * (b - a) : ℚ) := by exact_mod_cast h
    push_cast at h2 ⊢
    linarith

/-- A zero baseline makes the modelled change percentage zero
(`ℚ` division by zero), so the threshold branch is not taken. -/
theorem changePercent_zero_baseline (a : Int) : changePercent 0 a = 0 := by
  simp [changePercent]

/-- `detectLaserBlock` with the threshold condition resolved to true. -/
theorem detect_above (s : DetectorState) (a : Int) (now : Nat)
    (h : ((DETECTION_THRESHOLD : Int) : ℚ) ≤ changePercent s.baselineValue a) :
    detectLaserBlock s a now =
      if CONFIRMATION_COUNT ≤ s.confirmationCounter + 1 ∧ s.isBlocked = false then
        ({ s with
            confirmationCounter := s.confirmationCounter + 1
            isBlocked := true
            blockStartTime := now
            blockCount := s.blockCount + 1
            lastDetectionTime := now },
         some (sendLaserEvent "block_start" 0 now (s.blockCount + 1) a s.baselineValue))
      else ({ s with confirmationCounter := s.confirmationCounter + 1 }, none) := by
  simp only [detectLaserBlock, DETECTION_THRESHOLD] at h ⊢
  rw [if_pos (by exact_mod_cast h)]

/-- `detectLaserBlock` with the threshold condition resolved to false. -/
theorem detect_below (s : DetectorState) (a : Int) (now : Nat)
    (h : ¬ ((DETECTION_THRESHOLD : Int) : ℚ) ≤ changePercent s.baselineValue a) :
    detectLaserBlock s a now =
      if s.isBlocked = true ∧
          (if 0 < s.confirmationCounter then s.confirmationCounter - 1
           else s.confirmationCounter) = 0 then
        ({ s with
            confirmationCounter :=
              if 0 < s.confirmationCounter then s.confirmationCounter - 1
              else s.confirmationCounter
            isBlocked := false
            totalBlockedTime := s.totalBlockedTime + (now - s.blockStartTime) },
         some (sendLaserEvent "block_end" (now - s.blockStartTime) now s.blockCount
            a s.baselineValue))
      else
        ({ s with
            confirmationCounter :=
              if 0 < s.confirmationCounter then s.confirmationCounter - 1
              else s.confirmationCounter }, none) := by
  simp only [detectLaserBlock, DETECTION_THRESHOLD] at h ⊢
  rw [if_neg (by exact_mod_cast h)]

/-- The pairwise min/max fold of `connScan` splits into two independent folds. -/
theorem connScan_eq (samples : List Int) (p : Int × Int) :
    samples.foldl
      (fun mm r => (if r < mm.1 then r else mm.1, if r > mm.2 then r else mm.2)) p =
      (samples.foldl (fun m r => if r < m then r else m) p.1,
       samples.foldl (fun m r => if r > m then r else m) p.2) := by
  induction samples generalizing p with
  | nil => rfl
  | cons x xs ih => simp only [List.foldl_cons, ih]

theorem foldl_min_le_init (l : List Int) (a : Int) :
    l.foldl (fun m r => if r < m then r else m) a ≤ a := by
  induction l generalizing a with
  | nil => exact le_refl a
  | cons x xs ih =>
      simp only [List.foldl_cons]
      by_cases h : x < a
      · rw [if_pos h]; exact le_trans (ih x) (le_of_lt h)
      · rw [if_neg h]; exact ih a

theorem foldl_min_le_mem (l : List Int) (a x : Int) (hx : x ∈ l) :
    l.foldl (fun m r => if r < m then r else m) a ≤ x := by
  induction l generalizing a with
  | nil => cases hx
  | cons y ys ih =>
      simp only [List.foldl_cons]
      rcases List.mem_cons.mp hx with h | h
      · subst h
        by_cases hy : x < a
        · rw [if_pos hy]; exact foldl_min_le_init ys x
        · rw [if_neg hy]
          exact le_trans (foldl_min_le_init ys a) (le_of_not_lt hy)
      · by_cases hy : y < a
        · rw [if_pos hy]; exact ih y h
        · rw [if_neg hy]; exact ih a h

theorem foldl_min_mem_or_init (l : List Int) (a : Int) :
    l.foldl (fun m r => if r < m then r else m) a = a ∨
      l.foldl (fun m r => if r < m then r else m) a ∈ l := by
  induction l generalizing a with
  | nil => exact Or.inl rfl
  | cons y ys ih =>
      simp only [List.foldl_cons]
      by_cases hy : y < a
      · rw [if_pos hy]
        rcases ih y with h | h
        · exact Or.inr (by rw [h]; exact List.mem_cons_self y ys)
        · exact Or.inr (List.mem_cons_of_mem y h)
      · rw [if_neg hy]
        rcases ih a with h | h
        · exact Or.inl h
        · exact Or.inr (List.mem_cons_of_mem y h)

theorem foldl_max_ge_init (l : List Int) (a : Int) :
    a ≤ l.foldl (fun m r => if r > m then r else m) a := by
  induction l generalizing a with
  | nil => exact le_refl a
  | cons x xs ih =>
      simp only [List.foldl_cons]
      by_cases h : x > a
      · rw [if_pos h]; exact le_trans (le_of_lt h) (ih x)
      · rw [if_neg h]; exact ih a

theorem foldl_max_ge_mem (l : List Int) (a x : Int) (hx : x ∈ l) :
    x ≤ l.foldl (fun m r => if r > m then r else m) a := by
  induction l generalizing a with
  | nil => cases hx
  | cons y ys ih =>
      simp only [List.foldl_cons]
      rcases List.mem_cons.mp hx with h | h
      · subst h
        by_cases hy : x > a
        · rw [if_pos hy]; exact foldl_max_ge_init ys x
        · rw [if_neg hy]
          exact le_trans (le_of_not_lt hy) (foldl_max_ge_init ys a)
      · by_cases hy : y > a
        · rw [if_pos hy]; exact ih y h
        · rw [if_neg hy]; exact ih a h

theorem foldl_max_mem_or_init (l : List Int) (a : Int) :
    l.foldl (fun m r => if r > m then r else m) a = a ∨
      l.foldl (fun m r => if r > m then r else m) a ∈ l := by
  induction l generalizing a with
  | nil => exact Or.inl rfl
  | cons y ys ih =>
      simp only [List.foldl_cons]
      by_cases hy : y > a
      · rw [if_pos hy]
        rcases ih y with h | h
        · exact Or.inr (by rw [h]; exact List.mem_cons_self y ys)
        · exact Or.inr (List.mem_cons_of_mem y h)
      · rw [if_neg hy]
        rcases ih a with h | h
        · exact Or.inl h
        · exact Or.inr (List.mem_cons_of_mem y h)

/-- On in-range (10-bit) samples, `connScan` computes the genuine minimum
and maximum of the sample list. -/
theorem connScan_min_max (samples : List Int) (mn mx : Int)
    (hrange : ∀ x ∈ samples, 0 ≤ x ∧ x ≤ 1023)
    (hmn : mn ∈ samples) (hmn2 : ∀ x ∈ samples, mn ≤ x)
    (hmx : mx ∈ samples) (hmx2 : ∀ x ∈ samples, x ≤ mx) :
    connScan samples = (mn, mx) := by
  unfold connScan
  rw [connScan_eq]
  have h1 : samples.foldl (fun m r => if r < m then r else m) 1023 = mn := by
    apply le_antisymm (foldl_min_le_mem samples 1023 mn hmn)
    rcases foldl_min_mem_or_init samples 1023 with h | h
    · rw [h]; exact (hrange mn hmn).2
    · exact hmn2 _ h
  have h2 : samples.foldl (fun m r => if r > m then r else m) 0 = mx := by
    apply le_antisymm
    · rcases foldl_max_mem_or_init samples 0 with h | h
      · rw [h]; exact (hrange mx hmx).1
      · exact hmx2 _ h
    · exact foldl_max_ge_mem samples 0 mx hmx
  rw [h1, h2]

/-- Claim C7: `checkLDRConnection` returns `false` iff over its 10 collected
samples `max − min > 200` or `max = min`; in particular it returns `false`
for a constant all-0 run and a constant all-1023 run (and hence `true` for
any non-constant run with `max − min ≤ 200`). -/
theorem c7_connection_check_characterization :
    (∀ (samples : List Int) (mn mx : Int),
        samples.length = 10 →
        (∀ x ∈ samples, 0 ≤ x ∧ x ≤ 1023) →
        mn ∈ samples → (∀ x ∈ samples, mn ≤ x) →
        mx ∈ samples → (∀ x ∈ samples, x ≤ mx) →
        (checkLDRConnection samples = false ↔ (mx - mn > 200 ∨ mx = mn))) ∧
    checkLDRConnection (List.replicate 10 0) = false ∧
    checkLDRConnection (List.replicate 10 1023) = false := by
  refine ⟨?_, by decide, by decide⟩
  intro samples mn mx _ hrange hmn hmn2 hmx hmx2
  unfold checkLDRConnection
  rw [connScan_min_max samples mn mx hrange hmn hmn2 hmx hmx2]
  by_cases h : mx - mn > 200 ∨ mn = mx
  · rw [if_pos h]
    refine iff_of_true rfl ?_
    rcases h with h | h
    · exact Or.inl h
    · exact Or.inr h.symm
  · rw [if_neg h]
    refine iff_of_false (by simp) ?_
    intro hc
    apply h
    rcases hc with hc | hc
    · exact Or.inl hc
    · exact Or.inr hc.symm

/-- Witness for C7: a run with `max − min = 300 > 200` is reported
disconnected, by the characterization applied at a concrete sample list. -/
theorem c7_witness :
    checkLDRConnection [0, 300, 0, 300, 0, 300, 0, 300, 0, 300] = false :=
  (c7_connection_check_characterization.1
      [0, 300, 0, 300, 0, 300, 0, 300, 0, 300] 0 300
      (by decide) (by decide) (by decide) (by decide) (by decide) (by decide)).mpr
    (Or.inl (by decide))

/-- A concrete detector state in the middle of a block, used to exercise
the theorems on concrete inputs. -/
def exampleBlocked : DetectorState :=
  { baselineValue := 800
    isBlocked := true
    confirmationCounter := 1
    lastDetectionTime := 0
    blockStartTime := 100
    totalBlockedTime := 0
    blockCount := 1 }

/-- The event emitted when `exampleBlocked` clears at `millis() = 400`. -/
def exampleEndEvent : Event := sendLaserEvent "block_end" 300 400 1 800 800

/-- Claim C8: in every emitted event, `duration_ms` is present (carrying the
block's duration) exactly on `block_end` events and omitted on `block_start`
events.  The hypothesis `blockStartTime < now` models the strictly
monotone `millis()` clock: the end tick is at least one 50 ms loop delay
after the tick that recorded `blockStartTime`. -/
theorem c8_duration_field_presence (s : DetectorState) (a : Int) (now : Nat)
    (e : Event) (ht : s.blockStartTime < now)
    (he : (detectLaserBlock s a now).2 = some e) :
    (e.event_type = "block_end" →
        e.duration_ms = some (now - s.blockStartTime)) ∧
    (e.event_type = "block_start" → e.duration_ms = none) := by
  by_cases hcp : ((DETECTION_THRESHOLD : Int) : ℚ) ≤ changePercent s.baselineValue a
  · rw [detect_above s a now hcp] at he
    by_cases hfire : CONFIRMATION_COUNT ≤ s.confirmationCounter + 1 ∧ s.isBlocked = false
    · rw [if_pos hfire] at he
      have he' : some (sendLaserEvent "block_start" 0 now (s.blockCount + 1)
          a s.baselineValue) = some e := he
      injection he' with h
      subst h
      constructor
      · intro h
        simp only [sendLaserEvent] at h
        exact absurd h (by decide)
      · intro _
        simp [sendLaserEvent]
    · rw [if_neg hfire] at he
      exact Option.noConfusion (show (none : Option Event) = some e from he)
  · rw [detect_below s a now hcp] at he
    by_cases hend : s.isBlocked = true ∧
        (if 0 < s.confirmationCounter then s.confirmationCounter - 1
         else s.confirmationCounter) = 0
    · rw [if_pos hend] at he
      have he' : some (sendLaserEvent "block_end" (now - s.blockStartTime) now
          s.blockCount a s.baselineValue) = some e := he
      injection he' with h
      subst h
      constructor
      · intro _
        simp only [sendLaserEvent]
        rw [if_pos (Nat.sub_pos_of_lt ht)]
      · intro h
        simp only [sendLaserEvent] at h
        exact absurd h (by decide)
    · rw [if_neg hend] at he
      exact Option.noConfusion (show (none : Option Event) = some e from he)

/-- Witness for C8: the concrete mid-block state cleared at `millis() = 400`
emits a `block_end` event whose `duration_ms` is `some 300`. -/
theorem c8_witness :
    exampleBlocked.blockStartTime < 400 ∧
    ((exampleEndEvent.event_type = "block_end" →
        exampleEndEvent.duration_ms = some (400 - exampleBlocked.blockStartTime)) ∧
     (exampleEndEvent.event_type = "block_start" →
        exampleEndEvent.duration_ms = none)) :=
  ⟨by decide,
   c8_duration_field_presence exampleBlocked 800 400 exampleEndEvent (by decide)
     (by rw [detect_below exampleBlocked 800 400
           (by norm_num [changePercent, DETECTION_THRESHOLD, exampleBlocked])]
         rfl)⟩

/-- A decoded recalibration command: `{"calibrate": true}`. -/
def exampleCommandCalibrate : CommandDoc :=
  { led := none, buzzer := none, calibrate := some true }

/-- Connectivity-check samples that pass the gate (variation 100 ≤ 200,
non-constant). -/
def exampleConnSamples : List Int :=
  [100, 200, 100, 200, 100, 200, 100, 200, 100, 200]

/-- Calibration samples under steady illumination. -/
def exampleCalSamples : List Int := List.replicate 50 400

/-- Claim C9: a recalibration command, even during an active block, changes
only `baselineValue` among the detector's persistent variables; in
particular `blockCount` and `totalBlockedTime` are untouched. -/
theorem c9_recalibration_preserves_statistics (doc : CommandDoc)
    (connSamples calSamples : List Int) (s : DetectorState)
    (hcal : doc.calibrate = some true)
    (hconn : checkLDRConnection connSamples = true) :
    ∃ s' effs, handleCommand (some doc) connSamples calSamples s = some (s', effs) ∧
      s' = { s with baselineValue := calSamples.sum.tdiv CALIBRATION_SAMPLES } ∧
      s'.blockCount = s.blockCount ∧
      s'.totalBlockedTime = s.totalBlockedTime := by
  refine ⟨{ s with baselineValue := calSamples.sum.tdiv CALIBRATION_SAMPLES },
    ledEffects doc.led ++ buzzerEffects doc.buzzer ++ [Effect.tone 1000 200],
    ?_, rfl, rfl, rfl⟩
  simp [handleCommand, calibrateBaseline, hcal, hconn]

/-- Witness for C9: the recalibration command applied to the concrete
mid-block state with concrete connectivity and calibration samples. -/
theorem c9_witness :
    ∃ s' effs, handleCommand (some exampleCommandCalibrate) exampleConnSamples
        exampleCalSamples exampleBlocked = some (s', effs) ∧
      s' = { exampleBlocked with
              baselineValue := exampleCalSamples.sum.tdiv CALIBRATION_SAMPLES } ∧
      s'.blockCount = exampleBlocked.blockCount ∧
      s'.totalBlockedTime = exampleBlocked.totalBlockedTime :=
  c9_recalibration_preserves_statistics exampleCommandCalibrate exampleConnSamples
    exampleCalSamples exampleBlocked rfl (by decide)

/-- Claim C10: when JSON decoding of an inbound command fails, the handler
returns immediately: the detector state is returned unchanged and no
actuator effect and no outbound write is produced. -/
theorem c10_decode_failure_is_pure (connSamples calSamples : List Int)
    (s : DetectorState) :
    handleCommand none connSamples calSamples s = some (s, []) := rfl

/-- The detector state right after a calibration that measured a baseline
of 800. -/
def exampleCalibrated : DetectorState := { initDetector with baselineValue := 800 }

/-- A sustained above-threshold input: baseline 800, smoothed reading 590
(change 26.25 % ≥ 25 %), for four consecutive 50 ms ticks. -/
def fourAboveTicks : List (Int × Nat) := [(590, 0), (590, 50), (590, 100), (590, 150)]

/-- Counterexample to C1 as stated: the increment branch of
`detectLaserBlock` has no saturation, so four consecutive above-threshold
ticks from a freshly calibrated state drive the confirmation counter to 4,
violating `confirmationCounter ≤ CONFIRMATION_COUNT`. -/
theorem c1_counterexample :
    (runDetect exampleCalibrated fourAboveTicks).confirmationCounter = 4 ∧
    ¬ (runDetect exampleCalibrated fourAboveTicks).confirmationCounter ≤
        CONFIRMATION_COUNT := by
  norm_num [runDetect, fourAboveTicks, detectLaserBlock, changePercent,
    DETECTION_THRESHOLD, CONFIRMATION_COUNT, exampleCalibrated, initDetector,
    sendLaserEvent]

/-- Claim C1 (amended): on every tick the confirmation counter increments by
one exactly when the change percentage meets the threshold, decrements
toward zero otherwise, and never goes below zero — but it has no upper
saturation bound. -/
theorem c1_counter_step_amended (s : DetectorState) (a : Int) (now : Nat)
    (h0 : 0 ≤ s.confirmationCounter) :
    0 ≤ ((detectLaserBlock s a now).1).confirmationCounter ∧
    (((DETECTION_THRESHOLD : Int) : ℚ) ≤ changePercent s.baselineValue a →
        ((detectLaserBlock s a now).1).confirmationCounter =
          s.confirmationCounter + 1) ∧
    (¬ ((DETECTION_THRESHOLD : Int) : ℚ) ≤ changePercent s.baselineValue a →
        ((detectLaserBlock s a now).1).confirmationCounter =
          if 0 < s.confirmationCounter then s.confirmationCounter - 1
          else s.confirmationCounter) := by
  by_cases hcp : ((DETECTION_THRESHOLD : Int) : ℚ) ≤ changePercent s.baselineValue a
  · rw [detect_above s a now hcp]
    by_cases hfire : CONFIRMATION_COUNT ≤ s.confirmationCounter + 1 ∧ s.isBlocked = false
    · rw [if_pos hfire]
      exact ⟨by simp; omega, fun _ => rfl, fun h => absurd hcp h⟩
    · rw [if_neg hfire]
      exact ⟨by simp; omega, fun _ => rfl, fun h => absurd hcp h⟩
  · rw [detect_below s a now hcp]
    by_cases hend : s.isBlocked = true ∧
        (if 0 < s.confirmationCounter then s.confirmationCounter - 1
         else s.confirmationCounter) = 0
    · rw [if_pos hend]
      refine ⟨?_, fun h => absurd h hcp, fun _ => rfl⟩
      simp only
      split <;> omega
    · rw [if_neg hend]
      refine ⟨?_, fun h => absurd h hcp, fun _ => rfl⟩
      simp only
      split <;> omega

/-- Witness for C1: the amended step theorem applied to the freshly
calibrated state with smoothed reading 590 at `millis() = 0`. -/
theorem c1_witness :
    0 ≤ ((detectLaserBlock exampleCalibrated 590 0).1).confirmationCounter ∧
    (((DETECTION_THRESHOLD : Int) : ℚ) ≤ changePercent exampleCalibrated.baselineValue 590 →
        ((detectLaserBlock exampleCalibrated 590 0).1).confirmationCounter =
          exampleCalibrated.confirmationCounter + 1) ∧
    (¬ ((DETECTION_THRESHOLD : Int) : ℚ) ≤ changePercent exampleCalibrated.baselineValue 590 →
        ((detectLaserBlock exampleCalibrated 590 0).1).confirmationCounter =
          if 0 < exampleCalibrated.confirmationCounter then
            exampleCalibrated.confirmationCounter - 1
          else exampleCalibrated.confirmationCounter) :=
  c1_counter_step_amended exampleCalibrated 590 0 (by decide)

/-- Counterexample to C3 as stated: running four above-threshold ticks from
a freshly calibrated state yields a reachable `Blocked` state (with counter
4); feeding it exactly `CONFIRMATION_COUNT = 3` consecutive below-threshold
ticks (readings back at baseline, change 0 %) leaves the detector still
`Blocked` with counter 1 instead of transitioning to `Clear`. -/
theorem c3_counterexample :
    (runDetect exampleCalibrated fourAboveTicks).isBlocked = true ∧
    (runDetect exampleCalibrated
        (fourAboveTicks ++ [(800, 200), (800, 250), (800, 300)])).isBlocked = true ∧
    (runDetect exampleCalibrated
        (fourAboveTicks ++ [(800, 200), (800, 250), (800, 300)])).confirmationCounter
      = 1 := by
  norm_num [runDetect, fourAboveTicks, detectLaserBlock, changePercent,
    DETECTION_THRESHOLD, CONFIRMATION_COUNT, exampleCalibrated, initDetector,
    sendLaserEvent]

/-- Claim C3 (amended): from any `Blocked` state whose confirmation counter
is `c > 0`, feeding exactly `c` consecutive below-threshold ticks drives
the counter to zero and transitions to `Clear` on precisely the tick the
counter reaches zero (every proper prefix leaves the detector `Blocked`).
When the block was confirmed on exactly its third above-threshold tick the
counter is `CONFIRMATION_COUNT = 3` and the original claim is recovered. -/
theorem c3_blocked_drain_amended (ticks : List (Int × Nat)) :
    ∀ s : DetectorState, s.isBlocked = true →
      (0 : Int) < s.confirmationCounter →
      s.confirmationCounter = (ticks.length : Int) →
      (∀ p ∈ ticks,
        ¬ ((DETECTION_THRESHOLD : Int) : ℚ) ≤ changePercent s.baselineValue p.1) →
      (runDetect s ticks).isBlocked = false ∧
      (runDetect s ticks).confirmationCounter = 0 ∧
      ∀ k < ticks.length,
        (runDetect s (ticks.take k)).isBlocked = true ∧
        (runDetect s (ticks.take k)).confirmationCounter =
          s.confirmationCounter - (k : Int) := by
  induction ticks with
  | nil =>
      intro s _ hpos hc _
      rw [List.length_nil] at hc
      omega
  | cons p ps ih =>
      intro s hb hpos hc hbelow
      obtain ⟨a, t⟩ := p
      have hcp : ¬ ((DETECTION_THRESHOLD : Int) : ℚ) ≤
          changePercent s.baselineValue a :=
        hbelow (a, t) (List.mem_cons_self _ _)
      have hkey : runDetect s ((a, t) :: ps) =
          runDetect ((detectLaserBlock s a t).1) ps := rfl
      by_cases hone : ps.length = 0
      · -- the counter is 1: this tick drains it to 0 and clears the state
        obtain rfl := List.length_eq_zero.mp hone
        have hc1 : s.confirmationCounter = 1 := by
          rw [List.length_cons, List.length_nil] at hc
          omega
        have hdet : (detectLaserBlock s a t).1 =
            { s with
                confirmationCounter := s.confirmationCounter - 1
                isBlocked := false
                totalBlockedTime := s.totalBlockedTime + (t - s.blockStartTime) } := by
          rw [detect_below s a t hcp, if_pos hpos, if_pos ⟨hb, by omega⟩]
        refine ⟨?_, ?_, ?_⟩
        · rw [hkey, hdet]; rfl
        · rw [hkey, hdet]
          show s.confirmationCounter - 1 = 0
          omega
        · intro k hk
          rw [List.length_cons, List.length_nil] at hk
          interval_cases k
          exact ⟨hb, by simp [runDetect]⟩
      · -- the counter is ≥ 2: this tick decrements and stays Blocked
        have hcnt : s.confirmationCounter - 1 ≠ 0 := by
          rw [List.length_cons] at hc
          omega
        have hdet : (detectLaserBlock s a t).1 =
            { s with confirmationCounter := s.confirmationCounter - 1 } := by
          rw [detect_below s a t hcp, if_pos hpos,
            if_neg (fun hand => hcnt hand.2)]
        have hmain := ih { s with confirmationCounter := s.confirmationCounter - 1 }
          hb (by show (0 : Int) < s.confirmationCounter - 1; rw [List.length_cons] at hc; omega)
          (by show s.confirmationCounter - 1 = (ps.length : Int)
              rw [List.length_cons] at hc; push_cast at hc ⊢; omega)
          (by intro q hq; exact hbelow q (List.mem_cons_of_mem _ hq))
        refine ⟨by rw [hkey, hdet]; exact hmain.1,
          by rw [hkey, hdet]; exact hmain.2.1, ?_⟩
        intro k hk
        cases k with
        | zero => exact ⟨hb, by simp [runDetect]⟩
        | succ j =>
            rw [List.length_cons] at hk
            have hj : j < ps.length := Nat.lt_of_succ_lt_succ hk
            have htake : runDetect s (((a, t) :: ps).take (j + 1)) =
                runDetect { s with confirmationCounter := s.confirmationCounter - 1 }
                  (ps.take j) := by
              rw [List.take_succ_cons]
              show runDetect ((detectLaserBlock s a t).1) (ps.take j) = _
              rw [hdet]
            have hpre := hmain.2.2 j hj
            refine ⟨by rw [htake]; exact hpre.1, ?_⟩
            rw [htake, hpre.2]
            show s.confirmationCounter - 1 - (j : Int) = s.confirmationCounter - ((j + 1 : Nat) : Int)
            push_cast
            omega

/-- Witness for C3: the concrete mid-block state (`exampleBlocked`, counter
1) cleared by one baseline-level tick. -/
theorem c3_witness :
    (runDetect exampleBlocked [(800, 400)]).isBlocked = false ∧
    (runDetect exampleBlocked [(800, 400)]).confirmationCounter = 0 ∧
    ∀ k < ([((800 : Int), (400 : Nat))]).length,
      (runDetect exampleBlocked ([(800, 400)].take k)).isBlocked = true ∧
      (runDetect exampleBlocked ([(800, 400)].take k)).confirmationCounter =
        exampleBlocked.confirmationCounter - (k : Int) :=
  c3_blocked_drain_amended [(800, 400)] exampleBlocked rfl (by decide) (by decide)
    (by
      intro p hp
      simp only [List.mem_cons, List.not_mem_nil, or_false] at hp
      subst hp
      norm_num [changePercent, DETECTION_THRESHOLD, exampleBlocked])

/-- Claim C5: `blockCount` increases by one exactly on a Clear→Blocked
transition and at no other time; `blockCount` and `totalBlockedTime` are
monotonically non-decreasing on every tick; and an input sequence from a
`Clear` state whose confirmation counter never reaches
`CONFIRMATION_COUNT` leaves `blockCount` unchanged (and the state `Clear`). -/
theorem c5_block_count_behavior :
    (∀ (s : DetectorState) (a : Int) (now : Nat),
      ((detectLaserBlock s a now).1).blockCount =
        s.blockCount +
          (if s.isBlocked = false ∧ ((detectLaserBlock s a now).1).isBlocked = true
           then 1 else 0) ∧
      s.blockCount ≤ ((detectLaserBlock s a now).1).blockCount ∧
      s.totalBlockedTime ≤ ((detectLaserBlock s a now).1).totalBlockedTime) ∧
    (∀ (s : DetectorState) (ticks : List (Int × Nat)),
      s.isBlocked = false →
      (∀ k, k ≤ ticks.length →
        (runDetect s (ticks.take k)).confirmationCounter < CONFIRMATION_COUNT) →
      (runDetect s ticks).blockCount = s.blockCount ∧
      (runDetect s ticks).isBlocked = false) := by
  constructor
  · -- per-tick increment characterization and monotonicity
    intro s a now
    by_cases hcp : ((DETECTION_THRESHOLD : Int) : ℚ) ≤ changePercent s.baselineValue a
    · rw [detect_above s a now hcp]
      by_cases hfire : CONFIRMATION_COUNT ≤ s.confirmationCounter + 1 ∧ s.isBlocked = false
      · rw [if_pos hfire]
        refine ⟨?_, ?_, ?_⟩
        · rw [if_pos ⟨hfire.2, rfl⟩]
        · show s.blockCount ≤ s.blockCount + 1
          omega
        · exact le_refl _
      · rw [if_neg hfire]
        have hcond : ¬ (s.isBlocked = false ∧
            (({ s with confirmationCounter := s.confirmationCounter + 1 } :
              DetectorState)).isBlocked = true) := by
          rintro ⟨h1, h2⟩
          rw [show (({ s with confirmationCounter := s.confirmationCounter + 1 } :
            DetectorState)).isBlocked = s.isBlocked from rfl, h1] at h2
          exact Bool.noConfusion h2
        refine ⟨?_, le_refl _, le_refl _⟩
        rw [if_neg hcond]
        show s.blockCount = s.blockCount + 0
        omega
    · rw [detect_below s a now hcp]
      by_cases hend : s.isBlocked = true ∧
          (if 0 < s.confirmationCounter then s.confirmationCounter - 1
           else s.confirmationCounter) = 0
      · rw [if_pos hend]
        refine ⟨?_, le_refl _, Nat.le_add_right _ _⟩
        have hcond : ¬ (s.isBlocked = false ∧
            (({ s with
                confirmationCounter :=
                  if 0 < s.confirmationCounter then s.confirmationCounter - 1
                  else s.confirmationCounter
                isBlocked := false
                totalBlockedTime :=
                  s.totalBlockedTime + (now - s.blockStartTime) } :
              DetectorState)).isBlocked = true) :=
          fun h => Bool.noConfusion h.2
        rw [if_neg hcond]
        show s.blockCount = s.blockCount + 0
        omega
      · rw [if_neg hend]
        have hcond : ¬ (s.isBlocked = false ∧
            (({ s with confirmationCounter :=
                if 0 < s.confirmationCounter then s.confirmationCounter - 1
                else s.confirmationCounter } : DetectorState)).isBlocked = true) := by
          rintro ⟨h1, h2⟩
          rw [show (({ s with confirmationCounter :=
              if 0 < s.confirmationCounter then s.confirmationCounter - 1
              else s.confirmationCounter } : DetectorState)).isBlocked = s.isBlocked
            from rfl, h1] at h2
          exact Bool.noConfusion h2
        refine ⟨?_, le_refl _, le_refl _⟩
        rw [if_neg hcond]
        show s.blockCount = s.blockCount + 0
        omega
  · -- oscillation below full confirmation never fires a transition
    intro s ticks
    induction ticks generalizing s with
    | nil =>
        intro _ _
        exact ⟨rfl, by assumption⟩
    | cons p ps ih =>
        intro hclear hk
        obtain ⟨a, t⟩ := p
        have hs1 : ((detectLaserBlock s a t).1).isBlocked = false ∧
            ((detectLaserBlock s a t).1).blockCount = s.blockCount := by
          by_cases hcp : ((DETECTION_THRESHOLD : Int) : ℚ) ≤
              changePercent s.baselineValue a
          · have h1 : ((detectLaserBlock s a t).1).confirmationCounter <
                CONFIRMATION_COUNT := by
              have := hk 1 (by simp)
              simpa [runDetect, List.take_succ_cons] using this
            rw [detect_above s a t hcp] at h1 ⊢
            by_cases hfire : CONFIRMATION_COUNT ≤ s.confirmationCounter + 1 ∧
                s.isBlocked = false
            · rw [if_pos hfire] at h1
              have h2 := hfire.1
              simp [CONFIRMATION_COUNT] at h1 h2
              omega
            · rw [if_neg hfire]
              exact ⟨hclear, rfl⟩
          · rw [detect_below s a t hcp]
            rw [if_neg (fun h => by rw [hclear] at h; exact Bool.noConfusion h.1)]
            exact ⟨hclear, rfl⟩
        have hk' : ∀ k, k ≤ ps.length →
            (runDetect ((detectLaserBlock s a t).1) (ps.take k)).confirmationCounter <
              CONFIRMATION_COUNT := by
          intro k hkle
          have := hk (k + 1) (by simpa using Nat.succ_le_succ hkle)
          simpa [runDetect, List.take_succ_cons] using this
        obtain ⟨ih1, ih2⟩ := ih ((detectLaserBlock s a t).1) hs1.1 hk'
        refine ⟨?_, ?_⟩
        · show (runDetect ((detectLaserBlock s a t).1) ps).blockCount = s.blockCount
          rw [ih1]
          exact hs1.2
        · exact ih2

/-- Witness for C5: baseline 800, readings oscillating 590 / 800 — the
counter alternates 1, 0, 1, 0 (never reaching 3), so `blockCount` stays 0
and the detector stays `Clear`. -/
theorem c5_witness :
    (runDetect exampleCalibrated
        [(590, 0), (800, 50), (590, 100), (800, 150)]).blockCount =
      exampleCalibrated.blockCount ∧
    (runDetect exampleCalibrated
        [(590, 0), (800, 50), (590, 100), (800, 150)]).isBlocked = false :=
  c5_block_count_behavior.2 exampleCalibrated
    [(590, 0), (800, 50), (590, 100), (800, 150)] rfl
    (by
      intro k hk
      simp only [List.length_cons, List.length_nil] at hk
      interval_cases k <;>
        norm_num [runDetect, detectLaserBlock, changePercent, DETECTION_THRESHOLD,
          CONFIRMATION_COUNT, exampleCalibrated, initDetector, sendLaserEvent])

/-- Claim C2 (refuted — code bug): nothing guards the zero baseline.  The
connectivity gate and the baseline average use *different* samples, so a
run whose 10 gate samples vary mildly (here 100/200) but whose 50
calibration samples are all 0 passes the gate and stores
`baselineValue = 0`; the next loop tick then runs `detectLaserBlock`,
which evaluates the change-percentage division with a zero baseline
unconditionally (in C this is a float division by zero giving NaN/−∞, here
modelled by `ℚ` division giving 0 — in both cases execution simply
continues with no guard). -/
theorem c2_zero_baseline_unguarded :
    checkLDRConnection exampleConnSamples = true ∧
    calibrateBaseline exampleConnSamples (List.replicate 50 0) initDetector =
      some initDetector ∧
    initDetector.baselineValue = 0 ∧
    changePercent initDetector.baselineValue 0 = 0 ∧
    detectLaserBlock initDetector 0 0 = (initDetector, none) := by
  refine ⟨by decide, by decide, ?_, ?_, ?_⟩
  · rfl
  · simp [changePercent, initDetector]
  rw [detect_below initDetector 0 0
    (by norm_num [changePercent, DETECTION_THRESHOLD, initDetector])]
  rfl

/-! ## The sampler window invariant (C4) -/

/-- Summing the singleton-or-empty list of an optional element. -/
theorem sum_toList_getD (o : Option Int) : (o.toList).sum = o.getD 0 := by
  cases o <;> simp

/-- Splitting the last element off a 5-element prefix sum. -/
theorem take5_sum_split (r : List Int) :
    (r.take 5).sum = (r.take 4).sum + (r.get? 4).getD 0 := by
  rw [show (5 : Nat) = 4 + 1 from rfl, List.take_succ, List.sum_append,
    sum_toList_getD, List.get?_eq_getElem?]

/-- The full characterization of the sampler state after ingesting `xs`
from the zero-filled startup window: the index is `n mod 5`, the window
still has 5 slots, the running total is the sum of the last
`min (n, 5)` samples, and slot `(n + i) mod 5` holds the `(4 − i)`-th most
recent sample (0 when fewer than `5 − i` samples have ever been ingested). -/
theorem runSampler_spec (xs : List Int) :
    (runSampler xs).readingIndex = xs.length % 5 ∧
    (runSampler xs).ldrReadings.length = 5 ∧
    (runSampler xs).totalReading = (xs.reverse.take 5).sum ∧
    (∀ i, i < 5 →
      ((runSampler xs).ldrReadings.get? ((xs.length + i) % 5)).getD 0 =
        (xs.reverse.get? (4 - i)).getD 0) := by
  induction xs using List.reverseRecOn with
  | nil =>
      refine ⟨rfl, rfl, rfl, ?_⟩
      intro i hi
      interval_cases i <;> decide
  | append_singleton l x ih =>
      obtain ⟨ih1, ih2, ih3, ih4⟩ := ih
      have hrun : runSampler (l ++ [x]) = updateLDRReading (runSampler l) x := by
        simp [runSampler, List.foldl_append]
      have hold : ((runSampler l).ldrReadings.get? ((runSampler l).readingIndex)).getD 0 =
          (l.reverse.get? 4).getD 0 := by
        rw [ih1]
        have := ih4 0 (by norm_num)
        simpa using this
      have hlen : (l ++ [x]).length = l.length + 1 := by simp
      have hrev : (l ++ [x]).reverse = x :: l.reverse := by simp
      refine ⟨?_, ?_, ?_, ?_⟩
      · rw [hrun, hlen]
        show ((runSampler l).readingIndex + 1) % SAMPLE_SIZE = (l.length + 1) % 5
        rw [ih1, SAMPLE_SIZE]
        omega
      · rw [hrun]
        show ((runSampler l).ldrReadings.set _ x).length = 5
        rw [List.length_set]
        exact ih2
      · rw [hrun, hrev]
        show (runSampler l).totalReading -
            ((runSampler l).ldrReadings.get? ((runSampler l).readingIndex)).getD 0 + x =
          ((x :: l.reverse).take 5).sum
        rw [hold, ih3]
        rw [show ((x :: l.reverse).take 5) = x :: l.reverse.take 4 from rfl,
          List.sum_cons, take5_sum_split]
        omega
      · intro i hi
        rw [hrun, hlen, hrev]
        show (((runSampler l).ldrReadings.set ((runSampler l).readingIndex) x).get?
            ((l.length + 1 + i) % 5)).getD 0 =
          ((x :: l.reverse).get? (4 - i)).getD 0
        rw [ih1]
        by_cases hi4 : i = 4
        · subst hi4
          have hidx : (l.length + 1 + 4) % 5 = l.length % 5 := by omega
          rw [hidx]
          have hset : (((runSampler l).ldrReadings.set (l.length % 5) x).get?
              (l.length % 5)) = some x := by
            rw [List.get?_eq_getElem?, List.getElem?_set_eq_of_lt x
              (show l.length % 5 < (runSampler l).ldrReadings.length by
                rw [ih2]; omega)]
          rw [hset]
          rfl
        · have hi3 : i < 4 := by omega
          have hne : l.length % 5 ≠ (l.length + 1 + i) % 5 := by omega
          have hget : (((runSampler l).ldrReadings.set (l.length % 5) x).get?
              ((l.length + 1 + i) % 5)) =
              ((runSampler l).ldrReadings.get? ((l.length + 1 + i) % 5)) := by
            rw [List.get?_eq_getElem?, List.get?_eq_getElem?,
              List.getElem?_set_ne hne]
          rw [hget]
          have hidx : (l.length + 1 + i) % 5 = (l.length + (i + 1)) % 5 := by omega
          rw [hidx]
          have := ih4 (i + 1) (by omega)
          rw [this]
          rw [show (4 : Nat) - i = (3 - i) + 1 from by omega,
            show (4 : Nat) - (i + 1) = 3 - i from by omega,
            List.get?_cons_succ]

/-- Counterexample to C4 as stated: after ingesting a single sample 100,
`getAverageReading` returns `100 / 5 = 20`, not the mean of the most recent
`min(1, 5) = 1` samples (which is 100) — the divisor is always the window
capacity 5, with unfilled slots counting as zero. -/
theorem c4_counterexample :
    getAverageReading (runSampler [100]) ≠
      (([(100 : Int)].reverse.take (min [(100 : Int)].length 5)).sum).tdiv
        ((min [(100 : Int)].length 5 : Nat) : Int) := by
  decide

/-- Claim C4 (amended): after ingesting any sequence, `getAverageReading`
equals the sum of the most recent `min(n, 5)` ingested samples divided by
the fixed capacity 5 (truncating division; not-yet-filled slots count as
zero) — and on nonnegative samples this is exactly the floor-divided value. -/
theorem c4_average_window :
    (∀ xs : List Int, getAverageReading (runSampler xs) =
      ((xs.reverse.take 5).sum).tdiv 5) ∧
    (∀ xs : List Int, (∀ x ∈ xs, 0 ≤ x) →
      getAverageReading (runSampler xs) = ((xs.reverse.take 5).sum) / 5) := by
  have p1 : ∀ xs : List Int, getAverageReading (runSampler xs) =
      ((xs.reverse.take 5).sum).tdiv 5 := by
    intro xs
    show (runSampler xs).totalReading.tdiv ((SAMPLE_SIZE : Nat) : Int) = _
    rw [(runSampler_spec xs).2.2.1]
    rfl
  refine ⟨p1, ?_⟩
  intro xs hx
  have hsum : 0 ≤ (xs.reverse.take 5).sum := by
    apply List.sum_nonneg
    intro x hxm
    exact hx x (List.mem_reverse.mp (List.mem_of_mem_take hxm))
  rw [p1 xs, Int.tdiv_eq_ediv hsum (by norm_num)]

/-- Witness for C4: two nonnegative samples 500, 600 — the average is the
floor-divided window sum. -/
theorem c4_witness :
    (∀ x ∈ [(500 : Int), 600], 0 ≤ x) ∧
    getAverageReading (runSampler [500, 600]) =
      (([(500 : Int), 600].reverse.take 5).sum) / 5 :=
  ⟨by decide, c4_average_window.2 [500, 600] (by decide)⟩

/-! ## The post-calibration spurious block (C6) -/

/-- The system state right after `setup()` finishes: the moving-average
window is still zero-filled (calibration never writes to it) and the
baseline is freshly measured. -/
def postCalibration (B : Int) : SystemState :=
  ⟨initSampler, { initDetector with baselineValue := B }⟩

/-- With `5 · c ≤ 3 · B` and a positive baseline, the change percentage is
at least 40 %. -/
theorem changePercent_ge40 (b c : Int) (hb : 0 < b) (hc : 5 * c ≤ 3 * b) :
    (40 : ℚ) ≤ changePercent b c := by
  unfold changePercent
  rw [div_mul_eq_mul_div, le_div_iff₀ (by exact_mod_cast hb)]
  have h : ((5 * c : Int) : ℚ) ≤ ((3 * b : Int) : ℚ) := by exact_mod_cast hc
  push_cast at h ⊢
  linarith

/-- `loopTick` spelled with projections instead of the destructuring
match, so that concrete runs can be computed by rewriting. -/
theorem loopTick_eq (st : SystemState) (raw : Int) (now : Nat) :
    loopTick st raw now =
      (⟨updateLDRReading st.sampler raw,
        (detectLaserBlock st.detector
          (getAverageReading (updateLDRReading st.sampler raw)) now).1⟩,
       (detectLaserBlock st.detector
          (getAverageReading (updateLDRReading st.sampler raw)) now).2) := rfl

/-- Claim C6: calibration leaves the window zero-filled (first conjunct),
so with any positive measured baseline `B` and perfect post-calibration
readings equal to `B`, each of the first three loop ticks sees a change
percentage of at least 40 % (≥ the 25 % threshold), the confirmation
counter reaches `CONFIRMATION_COUNT` on the third tick, and the detector
spuriously transitions Clear→Blocked, incrementing `blockCount` to 1 and
emitting a `block_start` event — without any beam interruption. -/
theorem c6_spurious_block_after_calibration (B : Int) (hB : 0 < B)
    (t1 t2 t3 : Nat) :
    (∀ connSamples calSamples : List Int, checkLDRConnection connSamples = true →
      afterSetup connSamples calSamples =
        some (postCalibration (calSamples.sum.tdiv CALIBRATION_SAMPLES))) ∧
    (40 : ℚ) ≤ changePercent B (getAverageReading (runSampler [B])) ∧
    (40 : ℚ) ≤ changePercent B (getAverageReading (runSampler [B, B])) ∧
    (40 : ℚ) ≤ changePercent B (getAverageReading (runSampler [B, B, B])) ∧
    (runLoop (postCalibration B) [(B, t1), (B, t2)]).detector.isBlocked = false ∧
    (runLoop (postCalibration B) [(B, t1), (B, t2)]).detector.confirmationCounter = 2 ∧
    (runLoop (postCalibration B) [(B, t1), (B, t2), (B, t3)]).detector.isBlocked = true ∧
    (runLoop (postCalibration B)
        [(B, t1), (B, t2), (B, t3)]).detector.confirmationCounter =
      CONFIRMATION_COUNT ∧
    (runLoop (postCalibration B) [(B, t1), (B, t2), (B, t3)]).detector.blockCount = 1 ∧
    (loopTick (runLoop (postCalibration B) [(B, t1), (B, t2)]) B t3).2 =
      some (sendLaserEvent "block_start" 0 t3 1
        (getAverageReading (runSampler [B, B, B])) B) := by
  -- the three partially-filled sampler states
  have hup1 : updateLDRReading initSampler B =
      (⟨[B, 0, 0, 0, 0], 1, B⟩ : SamplerState) := by
    simp [updateLDRReading, initSampler, SAMPLE_SIZE, List.replicate]
  have hup2 : updateLDRReading (⟨[B, 0, 0, 0, 0], 1, B⟩ : SamplerState) B =
      (⟨[B, B, 0, 0, 0], 2, B + B⟩ : SamplerState) := by
    simp [updateLDRReading, SAMPLE_SIZE]
  have hup3 : updateLDRReading (⟨[B, B, 0, 0, 0], 2, B + B⟩ : SamplerState) B =
      (⟨[B, B, B, 0, 0], 3, B + B + B⟩ : SamplerState) := by
    simp [updateLDRReading, SAMPLE_SIZE]
  have hsam1 : runSampler [B] = (⟨[B, 0, 0, 0, 0], 1, B⟩ : SamplerState) := by
    rw [show runSampler [B] = updateLDRReading initSampler B from rfl, hup1]
  have hsam2 : runSampler [B, B] = (⟨[B, B, 0, 0, 0], 2, B + B⟩ : SamplerState) := by
    rw [show runSampler [B, B] =
      updateLDRReading (updateLDRReading initSampler B) B from rfl, hup1, hup2]
  have hsam3 : runSampler [B, B, B] =
      (⟨[B, B, B, 0, 0], 3, B + B + B⟩ : SamplerState) := by
    rw [show runSampler [B, B, B] =
      updateLDRReading (updateLDRReading (updateLDRReading initSampler B) B) B
      from rfl, hup1, hup2, hup3]
  have havg1 : getAverageReading (⟨[B, 0, 0, 0, 0], 1, B⟩ : SamplerState) =
      B.tdiv 5 := by
    simp [getAverageReading, SAMPLE_SIZE]
  have havg2 : getAverageReading (⟨[B, B, 0, 0, 0], 2, B + B⟩ : SamplerState) =
      (B + B).tdiv 5 := by
    simp [getAverageReading, SAMPLE_SIZE]
  have havg3 : getAverageReading (⟨[B, B, B, 0, 0], 3, B + B + B⟩ : SamplerState) =
      (B + B + B).tdiv 5 := by
    simp [getAverageReading, SAMPLE_SIZE]
  -- the partially-filled averages undershoot the baseline by ≥ 40 %
  have h5a : 5 * (B.tdiv 5) ≤ 3 * B := by
    rw [Int.tdiv_eq_ediv (le_of_lt hB) (by norm_num)]
    omega
  have h5b : 5 * ((B + B).tdiv 5) ≤ 3 * B := by
    rw [Int.tdiv_eq_ediv (by omega) (by norm_num)]
    omega
  have h5c : 5 * ((B + B + B).tdiv 5) ≤ 3 * B := by
    rw [Int.tdiv_eq_ediv (by omega) (by norm_num)]
    omega
  have hcp1 : (40 : ℚ) ≤ changePercent B (B.tdiv 5) :=
    changePercent_ge40 B _ hB h5a
  have hcp2 : (40 : ℚ) ≤ changePercent B ((B + B).tdiv 5) :=
    changePercent_ge40 B _ hB h5b
  have hcp3 : (40 : ℚ) ≤ changePercent B ((B + B + B).tdiv 5) :=
    changePercent_ge40 B _ hB h5c
  have h25 : ((DETECTION_THRESHOLD : Int) : ℚ) ≤ (40 : ℚ) := by
    norm_num [DETECTION_THRESHOLD]
  -- the three detector steps
  have hdet1 : detectLaserBlock { initDetector with baselineValue := B }
      (B.tdiv 5) t1 =
      ({ initDetector with baselineValue := B, confirmationCounter := 1 }, none) := by
    rw [detect_above { initDetector with baselineValue := B } (B.tdiv 5) t1
      (show ((DETECTION_THRESHOLD : Int) : ℚ) ≤
          changePercent ({ initDetector with baselineValue := B } :
            DetectorState).baselineValue (B.tdiv 5) from le_trans h25 hcp1)]
    rw [if_neg (by norm_num [initDetector, CONFIRMATION_COUNT])]
    simp [initDetector]
  have hdet2 : detectLaserBlock
      { initDetector with baselineValue := B, confirmationCounter := 1 }
      ((B + B).tdiv 5) t2 =
      ({ initDetector with baselineValue := B, confirmationCounter := 2 }, none) := by
    rw [detect_above
      { initDetector with baselineValue := B, confirmationCounter := 1 }
      ((B + B).tdiv 5) t2
      (show ((DETECTION_THRESHOLD : Int) : ℚ) ≤
          changePercent
            ({ initDetector with baselineValue := B, confirmationCounter := 1 } :
              DetectorState).baselineValue ((B + B).tdiv 5) from le_trans h25 hcp2)]
    rw [if_neg (by norm_num [initDetector, CONFIRMATION_COUNT])]
    simp [initDetector]
  have hdet3 : detectLaserBlock
      { initDetector with baselineValue := B, confirmationCounter := 2 }
      ((B + B + B).tdiv 5) t3 =
      ({ initDetector with
          baselineValue := B
          confirmationCounter := 3
          isBlocked := true
          blockStartTime := t3
          blockCount := 1
          lastDetectionTime := t3 },
       some (sendLaserEvent "block_start" 0 t3 1 ((B + B + B).tdiv 5) B)) := by
    rw [detect_above
      { initDetector with baselineValue := B, confirmationCounter := 2 }
      ((B + B + B).tdiv 5) t3
      (show ((DETECTION_THRESHOLD : Int) : ℚ) ≤
          changePercent
            ({ initDetector with baselineValue := B, confirmationCounter := 2 } :
              DetectorState).baselineValue ((B + B + B).tdiv 5) from le_trans h25 hcp3)]
    rw [if_pos ⟨by norm_num [initDetector, CONFIRMATION_COUNT], rfl⟩]
    simp [initDetector]
  -- the three loop ticks
  have hl1 : loopTick (postCalibration B) B t1 =
      ((⟨⟨[B, 0, 0, 0, 0], 1, B⟩,
        { initDetector with baselineValue := B, confirmationCounter := 1 }⟩ :
        SystemState), none) := by
    rw [loopTick_eq]
    rw [show (postCalibration B).sampler = initSampler from rfl]
    rw [show (postCalibration B).detector =
      { initDetector with baselineValue := B } from rfl]
    rw [hup1, havg1, hdet1]
  have hl2 : loopTick
      (⟨⟨[B, 0, 0, 0, 0], 1, B⟩,
        { initDetector with baselineValue := B, confirmationCounter := 1 }⟩ :
        SystemState) B t2 =
      ((⟨⟨[B, B, 0, 0, 0], 2, B + B⟩,
        { initDetector with baselineValue := B, confirmationCounter := 2 }⟩ :
        SystemState), none) := by
    rw [loopTick_eq]
    rw [hup2, havg2, hdet2]
  have hl3 : loopTick
      (⟨⟨[B, B, 0, 0, 0], 2, B + B⟩,
        { initDetector with baselineValue := B, confirmationCounter := 2 }⟩ :
        SystemState) B t3 =
      ((⟨⟨[B, B, B, 0, 0], 3, B + B + B⟩,
        { initDetector with
            baselineValue := B
            confirmationCounter := 3
            isBlocked := true
            blockStartTime := t3
            blockCount := 1
            lastDetectionTime := t3 }⟩ : SystemState),
       some (sendLaserEvent "block_start" 0 t3 1 ((B + B + B).tdiv 5) B)) := by
    rw [loopTick_eq]
    rw [hup3, havg3, hdet3]
  have hrun2 : runLoop (postCalibration B) [(B, t1), (B, t2)] =
      ⟨⟨[B, B, 0, 0, 0], 2, B + B⟩,
       { initDetector with baselineValue := B, confirmationCounter := 2 }⟩ := by
    simp only [runLoop, List.foldl_cons, List.foldl_nil, hl1, hl2]
  have hrun3 : runLoop (postCalibration B) [(B, t1), (B, t2), (B, t3)] =
      ⟨⟨[B, B, B, 0, 0], 3, B + B + B⟩,
       { initDetector with
          baselineValue := B
          confirmationCounter := 3
          isBlocked := true
          blockStartTime := t3
          blockCount := 1
          lastDetectionTime := t3 }⟩ := by
    simp only [runLoop, List.foldl_cons, List.foldl_nil, hl1, hl2, hl3]
  refine ⟨?_, ?_, ?_, ?_, ?_, ?_, ?_, ?_, ?_, ?_⟩
  · intro connSamples calSamples hconn
    simp [afterSetup, calibrateBaseline, hconn, postCalibration]
  · rw [hsam1, havg1]; exact hcp1
  · rw [hsam2, havg2]; exact hcp2
  · rw [hsam3, havg3]; exact hcp3
  · rw [hrun2]; rfl
  · rw [hrun2]
  · rw [hrun3]
  · rw [hrun3]; rfl
  · rw [hrun3]
  · rw [hrun2, hsam3, havg3, hl3]

/-- Witness for C6: baseline 800 measured at calibration, steady readings
of 800 afterwards — three ticks later the detector is spuriously `Blocked`
with `blockCount = 1`. -/
theorem c6_witness :
    (runLoop (postCalibration 800) [(800, 0), (800, 50), (800, 100)]).detector.isBlocked
        = true ∧
    (runLoop (postCalibration 800) [(800, 0), (800, 50), (800, 100)]).detector.blockCount
        = 1 :=
  ⟨(c6_spurious_block_after_calibration 800 (by decide) 0 50 100).2.2.2.2.2.2.1,
   (c6_spurious_block_after_calibration 800 (by decide) 0 50 100).2.2.2.2.2.2.2.2.1⟩

end LaserReceiver
